import Mathlib

/-!
Shallow embedding of the voice-detection service (app/services/voice_detector.py,
app/services/audio_processor.py, app/models/schemas.py).

Modelling conventions:
 - Python floats are modelled as exact rationals (ℚ); decimal literals such as
   0.05 are the exact rationals the source writes.
 - np.mean over a list is sum / length; np.std only ever appears in the source
   compared against a constant bound, so it is embedded through its square
   (npVar, the population variance) compared against the squared bound, which
   is equivalent over nonnegative reals and stays in exact arithmetic.
 - A Python feature dictionary is a record of Option-valued fields; dict.get
   with a default becomes Option.getD.
 - np.random.uniform(-0.02, 0.02) becomes an explicit jitter parameter.
 - The trained sklearn model of _ml_detection is external to the repository;
   its outputs (prediction, predict_proba row) are parameters of mlDetection.
-/

/-- A Python feature dictionary as produced by AudioProcessor.extract_features:
each key the voice detector reads, present (some v) or absent (none). -/
structure Features where
  spectral_centroid_mean : Option ℚ := none
  spectral_centroid_std : Option ℚ := none
  spectral_bandwidth_mean : Option ℚ := none
  spectral_bandwidth_std : Option ℚ := none
  spectral_rolloff_mean : Option ℚ := none
  spectral_rolloff_std : Option ℚ := none
  zcr_mean : Option ℚ := none
  zcr_std : Option ℚ := none
  rms_mean : Option ℚ := none
  rms_std : Option ℚ := none
  pitch_mean : Option ℚ := none
  pitch_std : Option ℚ := none
  pitch_range : Option ℚ := none
  tempo : Option ℚ := none
  mel_spec_mean : Option ℚ := none
  mel_spec_std : Option ℚ := none
  duration : Option ℚ := none
  mfcc_mean : Option (List ℚ) := none
  mfcc_std : Option (List ℚ) := none
  mfcc_delta_mean : Option (List ℚ) := none
  spectral_contrast_mean : Option (List ℚ) := none
  chroma_mean : Option (List ℚ) := none
  deriving Repr

/-- np.mean of a list (0 on the empty list, which the source never hits). -/
def npMean (xs : List ℚ) : ℚ := xs.sum / xs.length

/-- The square of np.std: population variance.  The source only compares
np.std with a constant, which is embedded as comparing npVar with the
squared constant. -/
def npVar (xs : List ℚ) : ℚ := npMean (xs.map (fun x => (x - npMean xs) ^ 2))

/-- Python max over a list (0 on the empty list, which the source guards). -/
def npMax : List ℚ → ℚ
  | [] => 0
  | x :: xs => xs.foldl max x

/-- Python min over a list (0 on the empty list, which the source guards). -/
def npMin : List ℚ → ℚ
  | [] => 0
  | x :: xs => xs.foldl min x

/-- VoiceDetector.AI_INDICATORS: tag → explanation phrase. -/
def AI_INDICATORS : List (String × String) :=
  [("pitch_consistency", "Unnatural pitch consistency detected"),
   ("spectral_uniformity", "Unusually uniform spectral distribution patterns"),
   ("robotic_patterns", "Robotic speech patterns and mechanical rhythm detected"),
   ("unnatural_pauses", "Artificial pause patterns inconsistent with natural speech"),
   ("synthetic_harmonics", "Synthetic harmonic structures detected"),
   ("missing_micro_variations", "Missing natural micro-variations in voice"),
   ("perfect_tempo", "Unnaturally perfect tempo and rhythm"),
   ("artificial_smoothness", "Artificially smooth frequency transitions"),
   ("compressed_dynamics", "Compressed dynamic range typical of TTS systems"),
   ("metallic_overtones", "Metallic overtones characteristic of AI synthesis")]

/-- VoiceDetector.HUMAN_INDICATORS: tag → explanation phrase. -/
def HUMAN_INDICATORS : List (String × String) :=
  [("natural_variation", "Natural pitch and rhythm variations detected"),
   ("breathing_patterns", "Natural breathing patterns present"),
   ("micro_fluctuations", "Authentic micro-fluctuations in voice quality"),
   ("emotional_nuance", "Emotional nuances and natural expression detected"),
   ("organic_transitions", "Organic frequency transitions present"),
   ("natural_harmonics", "Natural harmonic overtones detected"),
   ("dynamic_range", "Natural dynamic range in voice expression"),
   ("human_imperfections", "Subtle human imperfections detected in speech")]

/-- Signal 1 of _heuristic_detection: pitch consistency.  Contribution to
(ai_score, human_score, detected_indicators). -/
def pitchSignal (f : Features) : ℚ × ℚ × List String :=
  let pitch_std := f.pitch_std.getD 0
  let pitch_mean := f.pitch_mean.getD 0
  if pitch_mean > 0 then
    let r := if pitch_mean > 0 then pitch_std / pitch_mean else 0
    if r < 0.05 then (0.15, 0, ["pitch_consistency"])
    else if r > 0.15 then (0, 0.15, ["natural_variation"])
    else (0, 0, [])
  else (0, 0, [])

/-- Signal 2: spectral centroid variation (note the source defaults the mean
to 1, not 0, and has no outer positivity guard). -/
def centroidSignal (f : Features) : ℚ × ℚ × List String :=
  let spectral_centroid_std := f.spectral_centroid_std.getD 0
  let spectral_centroid_mean := f.spectral_centroid_mean.getD 1
  let centroid_cv :=
    if spectral_centroid_mean > 0 then spectral_centroid_std / spectral_centroid_mean else 0
  if centroid_cv < 0.1 then (0.12, 0, ["spectral_uniformity"])
  else if centroid_cv > 0.25 then (0, 0.12, ["organic_transitions"])
  else (0, 0, [])

/-- Signal 3: zero crossing rate analysis. -/
def zcrSignal (f : Features) : ℚ × ℚ × List String :=
  let zcr_std := f.zcr_std.getD 0
  let zcr_mean := f.zcr_mean.getD 0
  let r := if zcr_mean > 0 then zcr_std / zcr_mean else 0
  if r < 0.3 then (0.10, 0, ["robotic_patterns"])
  else if r > 0.5 then (0, 0.10, ["micro_fluctuations"])
  else (0, 0, [])

/-- Signal 4: RMS energy dynamics. -/
def rmsSignal (f : Features) : ℚ × ℚ × List String :=
  let rms_std := f.rms_std.getD 0
  let rms_mean := f.rms_mean.getD 0
  let r := if rms_mean > 0 then rms_std / rms_mean else 0
  if r < 0.2 then (0.10, 0, ["compressed_dynamics"])
  else if r > 0.4 then (0, 0.10, ["dynamic_range"])
  else (0, 0, [])

/-- Signal 5: MFCC analysis (voice timbre). -/
def mfccSignal (f : Features) : ℚ × ℚ × List String :=
  let mfcc_mean := f.mfcc_mean.getD []
  let mfcc_std := f.mfcc_std.getD []
  if mfcc_std.length > 0 ∧ mfcc_mean.length > 0 then
    let avg_mfcc_variation := npMean mfcc_std / (npMean (mfcc_mean.map (fun x => |x|)) + 1e-6)
    if avg_mfcc_variation < 0.3 then (0.13, 0, ["artificial_smoothness"])
    else if avg_mfcc_variation > 0.6 then (0, 0.13, ["natural_harmonics"])
    else (0, 0, [])
  else (0, 0, [])

/-- Signal 6: spectral contrast analysis. -/
def contrastSignal (f : Features) : ℚ × ℚ × List String :=
  let spectral_contrast := f.spectral_contrast_mean.getD []
  if spectral_contrast.length > 0 then
    let contrast_range :=
      if spectral_contrast.length > 1 then npMax spectral_contrast - npMin spectral_contrast else 0
    if contrast_range < 10 then (0.08, 0, ["synthetic_harmonics"])
    else if contrast_range > 25 then (0, 0.08, ["emotional_nuance"])
    else (0, 0, [])
  else (0, 0, [])

/-- Signal 7: tempo regularity over the MFCC delta means.  np.std < 1.0 and
np.std > 3.0 are embedded as npVar < 1 and npVar > 9. -/
def deltaSignal (f : Features) : ℚ × ℚ × List String :=
  let mfcc_delta := f.mfcc_delta_mean.getD []
  if mfcc_delta.length > 0 then
    if npVar mfcc_delta < 1 then (0.07, 0, ["perfect_tempo"])
    else if npVar mfcc_delta > 9 then (0, 0.07, ["breathing_patterns"])
    else (0, 0, [])
  else (0, 0, [])

/-- Signal 8: mel spectrogram analysis (unguarded; default 0). -/
def melSignal (f : Features) : ℚ × ℚ × List String :=
  let mel_std := f.mel_spec_std.getD 0
  if mel_std < 8 then (0.08, 0, ["missing_micro_variations"])
  else if mel_std > 15 then (0, 0.08, ["human_imperfections"])
  else (0, 0, [])

/-- Signal 9: spectral bandwidth analysis (mean defaults to 1; the human
branch adds weight but appends no tag). -/
def bandwidthSignal (f : Features) : ℚ × ℚ × List String :=
  let bandwidth_std := f.spectral_bandwidth_std.getD 0
  let bandwidth_mean := f.spectral_bandwidth_mean.getD 1
  let r := if bandwidth_mean > 0 then bandwidth_std / bandwidth_mean else 0
  if r < 0.15 then (0.09, 0, ["metallic_overtones"])
  else if r > 0.3 then (0, 0.09, [])
  else (0, 0, [])

/-- Signal 10: spectral rolloff consistency (mean defaults to 1; neither
branch appends a tag). -/
def rolloffSignal (f : Features) : ℚ × ℚ × List String :=
  let rolloff_std := f.spectral_rolloff_std.getD 0
  let rolloff_mean := f.spectral_rolloff_mean.getD 1
  let r := if rolloff_mean > 0 then rolloff_std / rolloff_mean else 0
  if r < 0.1 then (0.08, 0, [])
  else if r > 0.2 then (0, 0.08, [])
  else (0, 0, [])

/-- Lines 127-252 of _heuristic_detection: the accumulated
(ai_score, human_score, detected_indicators).  Each signal block reads only
the feature dictionary, so the sequential mutation is the sum of the per-signal
contributions and the concatenation of the per-signal tag lists, in table
order. -/
def heuristicScores (f : Features) : ℚ × ℚ × List String :=
  let s1 := pitchSignal f
  let s2 := centroidSignal f
  let s3 := zcrSignal f
  let s4 := rmsSignal f
  let s5 := mfccSignal f
  let s6 := contrastSignal f
  let s7 := deltaSignal f
  let s8 := melSignal f
  let s9 := bandwidthSignal f
  let s10 := rolloffSignal f
  (s1.1 + s2.1 + s3.1 + s4.1 + s5.1 + s6.1 + s7.1 + s8.1 + s9.1 + s10.1,
   s1.2.1 + s2.2.1 + s3.2.1 + s4.2.1 + s5.2.1 + s6.2.1 + s7.2.1 + s8.2.1 + s9.2.1 + s10.2.1,
   s1.2.2 ++ s2.2.2 ++ s3.2.2 ++ s4.2.2 ++ s5.2.2 ++ s6.2.2 ++ s7.2.2 ++ s8.2.2 ++ s9.2.2 ++ s10.2.2)

/-- Lines 254-263: normalized probabilities, or the default prior pair
(0.45, 0.55) when no signal fired. -/
def heuristicProbs (f : Features) : ℚ × ℚ :=
  let scores := heuristicScores f
  let total_score := scores.1 + scores.2.1
  if total_score > 0 then (scores.1 / total_score, scores.2.1 / total_score)
  else (0.45, 0.55)

/-- Python round(x, 2): round to the nearest hundredth. -/
def pyRound2 (x : ℚ) : ℚ := (round (x * 100) : ℤ) / 100

/-- Python str.lower over our alphabet. -/
def pyLower (s : String) : String := String.mk (s.toList.map Char.toLower)

/-- Python str.capitalize: first character uppercased, rest lowercased. -/
def pyCapitalize (s : String) : String :=
  match s.toList with
  | [] => ""
  | c :: rest => String.mk (c.toUpper :: rest.map Char.toLower)

/-- Dictionary access AI_INDICATORS[tag]; total-ized with a default that the
source never reaches (the tag list is filtered by key membership first). -/
def aiPhrase (tag : String) : String := (AI_INDICATORS.lookup tag).getD ""

/-- Dictionary access HUMAN_INDICATORS[tag], total-ized likewise. -/
def humanPhrase (tag : String) : String := (HUMAN_INDICATORS.lookup tag).getD ""

/-- The (classification, confidenceScore, explanation) triple the detector
returns. -/
structure DetectResult where
  classification : String
  confidenceScore : ℚ
  explanation : String
  deriving Repr

/-- Lines 254-291 of _heuristic_detection: decision, confidence clamp with
jitter, and explanation lookup.  The np.random.uniform(-0.02, 0.02) draw is
the explicit parameter noise. -/
def heuristicDetection (f : Features) (noise : ℚ) : DetectResult :=
  let p := heuristicProbs f
  let ai_probability := p.1
  let human_probability := p.2
  let detected_indicators := (heuristicScores f).2.2
  if ai_probability > human_probability then
    let confidence := min 0.99 (max 0.51 (ai_probability + noise))
    let ai_detected := detected_indicators.filter (fun i => (AI_INDICATORS.lookup i).isSome)
    let explanation :=
      match ai_detected with
      | [] => "Synthetic voice patterns detected in audio analysis"
      | [t] => aiPhrase t
      | t :: u :: _ => aiPhrase t ++ " and " ++ pyLower (aiPhrase u)
    { classification := "AI_GENERATED", confidenceScore := pyRound2 confidence,
      explanation := explanation }
  else
    let confidence := min 0.99 (max 0.51 (human_probability + noise))
    let human_detected := detected_indicators.filter (fun i => (HUMAN_INDICATORS.lookup i).isSome)
    let explanation :=
      match human_detected with
      | [] => "Natural human voice characteristics detected"
      | [t] => humanPhrase t
      | t :: u :: _ => humanPhrase t ++ " along with " ++ pyLower (humanPhrase u)
    { classification := "HUMAN", confidenceScore := pyRound2 confidence,
      explanation := explanation }

/-- _generate_ai_explanation (lines 322-347): threshold phrases joined with
" and ", then " detected" appended.  The confidence argument of the source is
unused there and omitted. -/
def generateAiExplanation (f : Features) : String :=
  let pitch_std := f.pitch_std.getD 0
  let pitch_mean := f.pitch_mean.getD 1
  let e1 : List String :=
    if pitch_mean > 0 ∧ pitch_std / pitch_mean < 0.1 then ["unnatural pitch consistency"] else []
  let rms_std := f.rms_std.getD 0
  let rms_mean := f.rms_mean.getD 1
  let e2 :=
    if rms_mean > 0 ∧ rms_std / rms_mean < 0.25 then e1 ++ ["compressed dynamic range"] else e1
  let zcr_std := f.zcr_std.getD 0
  let zcr_mean := f.zcr_mean.getD 1
  let e3 :=
    if zcr_mean > 0 ∧ zcr_std / zcr_mean < 0.35 then e2 ++ ["robotic speech patterns"] else e2
  let explanations := if e3 = [] then ["synthetic voice patterns detected"] else e3
  pyCapitalize (explanations.headD "") ++
    (match explanations with
     | _ :: b :: _ => " and " ++ b
     | _ => "") ++ " detected"

/-- _generate_human_explanation (lines 349-372): threshold phrases joined
with " with ".  The confidence argument of the source is unused and omitted. -/
def generateHumanExplanation (f : Features) : String :=
  let pitch_std := f.pitch_std.getD 0
  let pitch_mean := f.pitch_mean.getD 1
  let e1 : List String :=
    if pitch_mean > 0 ∧ pitch_std / pitch_mean > 0.12 then ["natural pitch variations"] else []
  let rms_std := f.rms_std.getD 0
  let rms_mean := f.rms_mean.getD 1
  let e2 :=
    if rms_mean > 0 ∧ rms_std / rms_mean > 0.3 then e1 ++ ["natural dynamic expression"] else e1
  let mel_std := f.mel_spec_std.getD 0
  let e3 := if mel_std > 12 then e2 ++ ["authentic voice characteristics"] else e2
  let explanations := if e3 = [] then ["natural human voice patterns identified"] else e3
  pyCapitalize (explanations.headD "") ++
    (match explanations with
     | _ :: b :: _ => " with " ++ b
     | _ => "")

/-- _ml_detection (lines 293-320).  The trained sklearn model is outside the
repository, so its outputs are parameters: prediction is model.predict(...)[0]
and probabilities is model.predict_proba(...)[0].  confidence is
max(probabilities) and is returned with round(confidence, 2), with no clamp. -/
def mlDetection (f : Features) (prediction : ℤ) (probabilities : List ℚ) : DetectResult :=
  let confidence := npMax probabilities
  if prediction = 1 then
    { classification := "AI_GENERATED", confidenceScore := pyRound2 confidence,
      explanation := generateAiExplanation f }
  else
    { classification := "HUMAN", confidenceScore := pyRound2 confidence,
      explanation := generateHumanExplanation f }

/-- _flatten_features (lines 68-112): the 17 scalar keys in fixed order, each
defaulting to 0.0 when absent, followed by the 5 array keys expanded in place
when present; an absent array key contributes nothing. -/
def flatten_features (f : Features) : List ℚ :=
  let scalars : List ℚ :=
    [f.spectral_centroid_mean.getD 0, f.spectral_centroid_std.getD 0,
     f.spectral_bandwidth_mean.getD 0, f.spectral_bandwidth_std.getD 0,
     f.spectral_rolloff_mean.getD 0, f.spectral_rolloff_std.getD 0,
     f.zcr_mean.getD 0, f.zcr_std.getD 0,
     f.rms_mean.getD 0, f.rms_std.getD 0,
     f.pitch_mean.getD 0, f.pitch_std.getD 0, f.pitch_range.getD 0,
     f.tempo.getD 0,
     f.mel_spec_mean.getD 0, f.mel_spec_std.getD 0,
     f.duration.getD 0]
  scalars ++ (f.mfcc_mean.getD []) ++ (f.mfcc_std.getD []) ++ (f.mfcc_delta_mean.getD [])
    ++ (f.spectral_contrast_mean.getD []) ++ (f.chroma_mean.getD [])

/-- Python exception values the embedded error paths produce.  In Python,
binascii.Error (raised by base64.b64decode) is a subclass of ValueError. -/
inductive PyErr where
  | valueError (msg : String)
  | binasciiError (msg : String)
  deriving Repr, DecidableEq

/-- The message carried by an exception. -/
def PyErr.msg : PyErr → String
  | .valueError m => m
  | .binasciiError m => m

/-- The value of one character of the standard base64 alphabet, none for any
other character (Python discards those in non-strict mode). -/
def b64val (c : Char) : Option ℕ :=
  if 'A' ≤ c ∧ c ≤ 'Z' then some (c.toNat - 65)
  else if 'a' ≤ c ∧ c ≤ 'z' then some (c.toNat - 71)
  else if '0' ≤ c ∧ c ≤ '9' then some (c.toNat + 4)
  else if c = '+' then some 62
  else if c = '/' then some 63
  else none

/-- Regroup a run of 6-bit values into bytes, as binascii.a2b_base64 does:
each quad yields 3 bytes; a final pair yields 1 byte and a final triple 2. -/
def b64groups : List ℕ → List ℕ
  | a :: b :: c :: d :: rest =>
      (a * 4 + b / 16) :: ((b % 16) * 16 + c / 4) :: ((c % 4) * 64 + d) :: b64groups rest
  | [a, b] => [a * 4 + b / 16]
  | [a, b, c] => [a * 4 + b / 16, (b % 16) * 16 + c / 4]
  | _ => []

/-- base64.b64decode with validate=False: characters outside the alphabet are
discarded; the count of data characters may not be 1 mod 4; a remainder of 2
or 3 data characters needs enough padding characters; otherwise the 6-bit
values are regrouped into bytes. -/
def pyB64Decode (s : String) : Except PyErr (List ℕ) :=
  let data := s.toList.filterMap b64val
  let pads := (s.toList.filter (fun c => c = '=')).length
  if data.length % 4 = 1 then
    .error (.binasciiError "Invalid base64-encoded string")
  else if data.length % 4 = 0 ∨ data.length % 4 + pads ≥ 4 then
    .ok (b64groups data)
  else
    .error (.binasciiError "Incorrect padding")

/-- AudioProcessor.decode_base64_audio (lines 44-60): returns the decoded
bytes, and turns any decoding exception into a ValueError. -/
def decode_base64_audioBytes (audio_base64 : String) : Except PyErr (List ℕ) :=
  match pyB64Decode audio_base64 with
  | .ok bs => .ok bs
  | .error e => .error (.valueError ("Failed to decode base64 audio: " ++ e.msg))

/-- VoiceDetectionRequest.validate_base64 (schemas.py lines 45-57): decodes
the field, rejects payloads shorter than 100 bytes, and wraps every exception
(the inner too-short ValueError included) as a ValueError. -/
def validate_base64 (v : String) : Except PyErr String :=
  match pyB64Decode v with
  | .ok decoded =>
      if decoded.length < 100 then
        .error (.valueError ("Invalid base64 encoding: " ++ "Audio data too short"))
      else .ok v
  | .error e => .error (.valueError ("Invalid base64 encoding: " ++ e.msg))

/-- Whether a temporary file created for one load_audio_from_bytes call still
exists; the explicit-state image of the filesystem that call touches. -/
structure TmpState where
  tmpExists : Bool
  deriving Repr, DecidableEq

/-- The outcome of the external librosa.load call on the temporary file:
either a signal with its sample rate, or an exception message. -/
inductive LoadOutcome where
  | ok (signal : List ℚ) (sr : ℕ)
  | fail (msg : String)

/-- os.remove guarded by os.path.exists, the body of the finally block. -/
def removeIfExists (st : TmpState) : TmpState :=
  if st.tmpExists then { tmpExists := false } else st

/-- AudioProcessor.load_audio_from_bytes (lines 62-95): writes the bytes to a
NamedTemporaryFile(delete=False) (making it exist), then loads it via librosa
(external, an explicit parameter here); on success it returns the signal, on
failure a ValueError, and the finally block removes the temporary file on
both paths.  Result: final filesystem state and the returned value. -/
def load_audio_from_bytes (audio_bytes : List ℕ) (load : LoadOutcome) :
    TmpState × Except PyErr (List ℚ × ℕ) :=
  let st : TmpState := { tmpExists := true }
  match load with
  | .ok signal sr => (removeIfExists st, .ok (signal, sr))
  | .fail m => (removeIfExists st, .error (.valueError ("Failed to load audio: " ++ m)))

/-- A concrete feature dictionary every ratio of which lies strictly between
the two thresholds of its signal, so that no signal fires. -/
def fNoFire : Features :=
  { spectral_centroid_mean := some 1, spectral_centroid_std := some 0.15,
    zcr_mean := some 1, zcr_std := some 0.4,
    rms_mean := some 1, rms_std := some 0.3,
    mel_spec_std := some 10,
    spectral_bandwidth_mean := some 1, spectral_bandwidth_std := some 0.2,
    spectral_rolloff_mean := some 1, spectral_rolloff_std := some 0.15 }

/-- A concrete feature dictionary whose spectral centroid mean is present and
equal to 0 (so ≤ 0), with zero deviation. -/
def fZeroCentroid : Features :=
  { spectral_centroid_mean := some 0, spectral_centroid_std := some 0 }

/-- A concrete feature dictionary whose spectral centroid, bandwidth and
rolloff means are all present and 0 (the pitch, ZCR and RMS means are absent
and default to 0). -/
def fZeroMeans : Features :=
  { spectral_centroid_mean := some 0, spectral_centroid_std := some 0,
    spectral_bandwidth_mean := some 0, spectral_bandwidth_std := some 0,
    spectral_rolloff_mean := some 0, spectral_rolloff_std := some 0 }

/-- The family of flat-tone feature dictionaries: deviation statistics 0,
tested means the given parameters, list features constant singletons. -/
def flatToneF (pm cm zm rm bm rom q c d : ℚ) : Features :=
  { pitch_mean := some pm, pitch_std := some 0,
    spectral_centroid_mean := some cm, spectral_centroid_std := some 0,
    zcr_mean := some zm, zcr_std := some 0,
    rms_mean := some rm, rms_std := some 0,
    mfcc_mean := some [q], mfcc_std := some [0],
    mfcc_delta_mean := some [d], spectral_contrast_mean := some [c],
    mel_spec_std := some 0,
    spectral_bandwidth_mean := some bm, spectral_bandwidth_std := some 0,
    spectral_rolloff_mean := some rom, spectral_rolloff_std := some 0 }

/-- Every tag the heuristic signal table can append, in any run. -/
def heuristicTagList : List String :=
  ["pitch_consistency", "natural_variation", "spectral_uniformity", "organic_transitions",
   "robotic_patterns", "micro_fluctuations", "compressed_dynamics", "dynamic_range",
   "artificial_smoothness", "natural_harmonics", "synthetic_harmonics", "emotional_nuance",
   "perfect_tempo", "breathing_patterns", "missing_micro_variations", "human_imperfections",
   "metallic_overtones"]

/-! Helper lemmas. -/

/-- round is monotone on ℚ. -/
lemma roundMonoQ {x y : ℚ} (h : x ≤ y) : round x ≤ round y := by
  rw [round_eq, round_eq]
  exact Int.floor_le_floor (by linarith)

/-- Rounding a value of the clamp band [0.51, 0.99] to 2 decimals stays in
the band, because both bounds are 2-decimal grid points. -/
lemma pyRound2_band {y : ℚ} (h1 : 0.51 ≤ y) (h2 : y ≤ 0.99) :
    0.51 ≤ pyRound2 y ∧ pyRound2 y ≤ 0.99 := by
  unfold pyRound2
  have hl : (51 : ℤ) ≤ round (y * 100) := by
    have h51 : round ((51 : ℚ)) ≤ round (y * 100) := roundMonoQ (by linarith)
    simpa using h51
  have hu : round (y * 100) ≤ (99 : ℤ) := by
    have h99 : round (y * 100) ≤ round ((99 : ℚ)) := roundMonoQ (by linarith)
    simpa using h99
  have hl2 : (51 : ℚ) ≤ ((round (y * 100) : ℤ) : ℚ) := by exact_mod_cast hl
  have hu2 : ((round (y * 100) : ℤ) : ℚ) ≤ (99 : ℚ) := by exact_mod_cast hu
  constructor <;> [linarith ; linarith]

/-- The value produced by the confidence clamp of _heuristic_detection. -/
lemma clamp_band (x : ℚ) :
    0.51 ≤ min 0.99 (max 0.51 x) ∧ min 0.99 (max 0.51 x) ≤ 0.99 :=
  ⟨le_min (by norm_num) (le_max_left _ _), min_le_left _ _⟩

/-- A string append is nonempty when its left part is. -/
lemma append_ne_left {s : String} (t : String) (h : s ≠ "") : s ++ t ≠ "" := by
  intro hc
  apply h
  have hd := congrArg String.data hc
  rw [String.data_append] at hd
  exact String.ext (List.append_eq_nil.mp hd).1

/-- A string append is nonempty when its right part is. -/
lemma append_ne_right (s : String) {t : String} (h : t ≠ "") : s ++ t ≠ "" := by
  intro hc
  apply h
  have hd := congrArg String.data hc
  rw [String.data_append] at hd
  exact String.ext (List.append_eq_nil.mp hd).2

/-! Theorems about the claims. -/

/-- C9: load_audio_from_bytes releases the temporary file on every exit path:
whatever the external load does (success or failure), the temporary file no
longer exists when the call returns, and the failure surfaces as ValueError. -/
theorem load_audio_tmp_released (audio_bytes : List ℕ) (load : LoadOutcome) :
    (load_audio_from_bytes audio_bytes load).1.tmpExists = false := by
  cases load <;> rfl

/-- C10: the heuristic classification label is independent of the jitter
draw: any two jitter values in the configured interval [-0.02, 0.02] give
the same label, because the decision compares the pre-jitter probabilities. -/
theorem heuristic_label_jitter_independent (f : Features) (n1 n2 : ℚ)
    (h1l : -0.02 ≤ n1) (h1u : n1 ≤ 0.02) (h2l : -0.02 ≤ n2) (h2u : n2 ≤ 0.02) :
    (heuristicDetection f n1).classification = (heuristicDetection f n2).classification := by
  by_cases h : (heuristicProbs f).1 > (heuristicProbs f).2 <;>
    simp [heuristicDetection, h]

/-- Witness for C10 at a concrete feature dictionary and jitter pair. -/
theorem heuristic_label_jitter_independent_witness :
    (heuristicDetection { mel_spec_std := some 10 } 0).classification
      = (heuristicDetection { mel_spec_std := some 10 } 0.01).classification :=
  heuristic_label_jitter_independent { mel_spec_std := some 10 } 0 0.01
    (by norm_num) (by norm_num) (by norm_num) (by norm_num)

/-- C6: the heuristic label is AI_GENERATED exactly when the jitter-adjusted
ai probability exceeds the jitter-adjusted human probability (the same jitter
shifts both, so this is the comparison of the normalized probabilities), and
HUMAN otherwise, ties included. -/
theorem heuristic_decision_rule (f : Features) (noise : ℚ) :
    ((heuristicDetection f noise).classification = "AI_GENERATED"
        ↔ (heuristicProbs f).1 + noise > (heuristicProbs f).2 + noise)
    ∧ ((heuristicDetection f noise).classification = "HUMAN"
        ↔ ¬ ((heuristicProbs f).1 + noise > (heuristicProbs f).2 + noise)) := by
  by_cases h : (heuristicProbs f).1 > (heuristicProbs f).2 <;>
    simp [heuristicDetection, h, add_lt_add_iff_right]

/-- C1 counterexample: on the ML strategy there is no clamp — a model that
returns class probabilities (0, 1) yields confidenceScore 1, outside the
configured band [0.51, 0.99]. -/
theorem ml_confidence_escapes_band :
    ¬ ((mlDetection {} 1 [0, 1]).confidenceScore ≤ 0.99) := by
  norm_num [mlDetection, npMax, pyRound2, round_eq]

/-- C1 amended: the heuristic strategy always returns a confidenceScore in
the clamp band [0.51, 0.99], for every feature dictionary and every jitter
value; the ML strategy returns round(max(predict_proba), 2) with no clamp. -/
theorem confidence_band_amended (f : Features) (noise : ℚ) (prediction : ℤ)
    (probabilities : List ℚ) :
    (0.51 ≤ (heuristicDetection f noise).confidenceScore
      ∧ (heuristicDetection f noise).confidenceScore ≤ 0.99)
    ∧ (mlDetection f prediction probabilities).confidenceScore
        = pyRound2 (npMax probabilities) := by
  constructor
  · by_cases h : (heuristicProbs f).1 > (heuristicProbs f).2 <;>
      · simp only [heuristicDetection, if_pos, if_neg, h, ite_true, ite_false]
        exact pyRound2_band (clamp_band _).1 (clamp_band _).2
  · by_cases hp : prediction = 1 <;> simp [mlDetection, hp]

/-- C4 counterexample: two feature dictionaries need not flatten to arrays of
the same length — an absent vector key contributes nothing rather than
defaulting, so the empty dictionary gives 17 entries while one holding a
1-element mfcc_mean gives 18. -/
theorem flatten_length_differs :
    (flatten_features {}).length = 17
    ∧ (flatten_features { mfcc_mean := some [1] }).length = 18
    ∧ (flatten_features {}).length ≠ (flatten_features { mfcc_mean := some [1] }).length := by
  refine ⟨by norm_num [flatten_features], by norm_num [flatten_features],
    by norm_num [flatten_features]⟩

/-- C4 amended: flattening always yields the 17 scalar slots in fixed order
(0.0 for an absent scalar key) followed by the present vector keys expanded
in place, so the length is 17 plus the lengths of the vector values that are
present; equal lengths are guaranteed only when the vector keys present and
their lengths coincide. -/
theorem flatten_length_formula (f : Features) :
    (flatten_features f).length
      = 17 + (f.mfcc_mean.getD []).length + (f.mfcc_std.getD []).length
        + (f.mfcc_delta_mean.getD []).length + (f.spectral_contrast_mean.getD []).length
        + (f.chroma_mean.getD []).length := by
  simp [flatten_features]
  ring

/-- C5: when no signal fires (aiScore + humanScore = 0), the heuristic
strategy raises no error: the probabilities fall back to the default prior
pair (0.45, 0.55) and the label is HUMAN. -/
theorem zero_scores_default_prior (f : Features) (noise : ℚ)
    (h : (heuristicScores f).1 + (heuristicScores f).2.1 = 0) :
    heuristicProbs f = (0.45, 0.55)
    ∧ (heuristicDetection f noise).classification = "HUMAN" := by
  have hp : heuristicProbs f = (0.45, 0.55) := by
    simp only [heuristicProbs, h]
    norm_num
  refine ⟨hp, ?_⟩
  simp [heuristicDetection, hp]
  norm_num

/-- Witness for C5: a feature dictionary whose every ratio lies strictly
between the two thresholds of its signal, so no signal fires. -/
theorem zero_scores_default_prior_witness :
    ((heuristicScores fNoFire).1 + (heuristicScores fNoFire).2.1 = 0)
    ∧ (heuristicDetection fNoFire 0.01).classification = "HUMAN" := by
  have h0 : (heuristicScores fNoFire).1 + (heuristicScores fNoFire).2.1 = 0 := by
    norm_num [heuristicScores, pitchSignal, centroidSignal, zcrSignal, rmsSignal, mfccSignal,
      contrastSignal, deltaSignal, melSignal, bandwidthSignal, rolloffSignal, fNoFire]
  exact ⟨h0, (zero_scores_default_prior fNoFire 0.01 h0).2⟩

/-- C2 counterexample: a feature dictionary whose spectral centroid mean is
present and 0 (hence ≤ 0) is NOT skipped by the centroid signal — the guard
substitutes ratio 0, which satisfies the low threshold, so aiScore gains the
signal weight and the tag spectral_uniformity is appended. -/
theorem zero_mean_signal_not_skipped :
    fZeroCentroid.spectral_centroid_mean.getD 1 ≤ 0
    ∧ centroidSignal fZeroCentroid = (0.12, 0, ["spectral_uniformity"])
    ∧ "spectral_uniformity" ∈ (heuristicScores fZeroCentroid).2.2 := by
  refine ⟨by norm_num [fZeroCentroid], ?_, ?_⟩
  · norm_num [centroidSignal, fZeroCentroid]
  · norm_num [heuristicScores, pitchSignal, centroidSignal, zcrSignal, rmsSignal, mfccSignal,
      contrastSignal, deltaSignal, melSignal, bandwidthSignal, rolloffSignal, fZeroCentroid]

/-- C2 amended: among the division-guarded signals, only the pitch signal is
skipped entirely when its mean is ≤ 0; for the other guarded signals
(centroid, ZCR, RMS, bandwidth, rolloff) a mean ≤ 0 makes the tested ratio 0,
which fires the low/AI branch: the weight is added to aiScore and the AI tag
(when the signal has one) is appended. -/
theorem zero_mean_signal_behavior (f : Features)
    (hp : f.pitch_mean.getD 0 ≤ 0) (hc : f.spectral_centroid_mean.getD 1 ≤ 0)
    (hz : f.zcr_mean.getD 0 ≤ 0) (hr : f.rms_mean.getD 0 ≤ 0)
    (hb : f.spectral_bandwidth_mean.getD 1 ≤ 0) (hro : f.spectral_rolloff_mean.getD 1 ≤ 0) :
    pitchSignal f = (0, 0, [])
    ∧ centroidSignal f = (0.12, 0, ["spectral_uniformity"])
    ∧ zcrSignal f = (0.10, 0, ["robotic_patterns"])
    ∧ rmsSignal f = (0.10, 0, ["compressed_dynamics"])
    ∧ bandwidthSignal f = (0.09, 0, ["metallic_overtones"])
    ∧ rolloffSignal f = (0.08, 0, []) := by
  refine ⟨?_, ?_, ?_, ?_, ?_, ?_⟩
  · simp [pitchSignal, if_neg (not_lt.mpr hp)]
  · simp only [centroidSignal, if_neg (not_lt.mpr hc)]
    norm_num
  · simp only [zcrSignal, if_neg (not_lt.mpr hz)]
    norm_num
  · simp only [rmsSignal, if_neg (not_lt.mpr hr)]
    norm_num
  · simp only [bandwidthSignal, if_neg (not_lt.mpr hb)]
    norm_num
  · simp only [rolloffSignal, if_neg (not_lt.mpr hro)]
    norm_num

/-- Witness for the amended C2 at a concrete feature dictionary with every
guarded mean either absent (default 0 or skipped) or explicitly 0. -/
theorem zero_mean_signal_behavior_witness :
    pitchSignal fZeroMeans = (0, 0, [])
    ∧ centroidSignal fZeroMeans = (0.12, 0, ["spectral_uniformity"]) := by
  have h := zero_mean_signal_behavior fZeroMeans (by norm_num [fZeroMeans])
    (by norm_num [fZeroMeans]) (by norm_num [fZeroMeans]) (by norm_num [fZeroMeans])
    (by norm_num [fZeroMeans]) (by norm_num [fZeroMeans])
  exact ⟨h.1, h.2.1⟩

/-- C7: one error class for bad client audio input.  Whenever base64
decoding fails, decode_base64_audio raises a ValueError; and whenever the
input decodes to fewer than 100 bytes, validate_base64 raises a ValueError
as well — the same class of error. -/
theorem bad_input_single_error_class (s : String) :
    (∀ e, pyB64Decode s = .error e
        → ∃ m, decode_base64_audioBytes s = .error (.valueError m))
    ∧ (∀ bs, pyB64Decode s = .ok bs → bs.length < 100
        → ∃ m, validate_base64 s = .error (.valueError m)) := by
  constructor
  · intro e he
    unfold decode_base64_audioBytes
    rw [he]
    exact ⟨_, rfl⟩
  · intro bs hbs hlen
    unfold validate_base64
    rw [hbs]
    simp only [if_pos hlen]
    exact ⟨_, rfl⟩

/-- Witness for C7: the 5-character string AAAAA is invalid base64 (data
count 1 mod 4) and decoding it raises ValueError; AAAA is valid base64 for a
3-byte payload, shorter than 100 bytes, and validation raises ValueError. -/
theorem bad_input_single_error_class_witness :
    (∃ m, decode_base64_audioBytes "AAAAA" = .error (.valueError m))
    ∧ (∃ m, validate_base64 "AAAA" = .error (.valueError m)) :=
  ⟨(bad_input_single_error_class "AAAAA").1 (.binasciiError "Invalid base64-encoded string") rfl,
   (bad_input_single_error_class "AAAA").2 [0, 0, 0] rfl (by norm_num)⟩

/-- C3: on a flat constant tone — every deviation statistic 0, every tested
mean positive, constant singleton list features — every heuristic signal
fires its AI threshold: the triggered tag list is exactly the AI tags of the
rule table in table order (the rolloff signal carries no tag), and the label
is AI_GENERATED for every jitter value. -/
theorem flat_tone_all_ai (pm cm zm rm bm rom q c d noise : ℚ)
    (hpm : 0 < pm) (hcm : 0 < cm) (hzm : 0 < zm) (hrm : 0 < rm)
    (hbm : 0 < bm) (hrom : 0 < rom) :
    (heuristicScores (flatToneF pm cm zm rm bm rom q c d)).2.2
      = ["pitch_consistency", "spectral_uniformity", "robotic_patterns",
         "compressed_dynamics", "artificial_smoothness", "synthetic_harmonics",
         "perfect_tempo", "missing_micro_variations", "metallic_overtones"]
    ∧ (heuristicDetection (flatToneF pm cm zm rm bm rom q c d) noise).classification
        = "AI_GENERATED" := by
  have hsc : heuristicScores (flatToneF pm cm zm rm bm rom q c d)
      = (1, 0, ["pitch_consistency", "spectral_uniformity", "robotic_patterns",
         "compressed_dynamics", "artificial_smoothness", "synthetic_harmonics",
         "perfect_tempo", "missing_micro_variations", "metallic_overtones"]) := by
    norm_num [heuristicScores, flatToneF, pitchSignal, centroidSignal, zcrSignal, rmsSignal,
      mfccSignal, contrastSignal, deltaSignal, melSignal, bandwidthSignal, rolloffSignal,
      npMean, npVar, hpm, hcm, hzm, hrm, hbm, hrom]
  have hprobs : heuristicProbs (flatToneF pm cm zm rm bm rom q c d) = (1, 0) := by
    simp only [heuristicProbs, hsc]
    norm_num
  refine ⟨by rw [hsc], ?_⟩
  simp [heuristicDetection, hprobs]

/-- Witness for C3 at a concrete flat-tone dictionary. -/
theorem flat_tone_all_ai_witness :
    (heuristicScores (flatToneF 1 1 1 1 1 1 5 3 2)).2.2
      = ["pitch_consistency", "spectral_uniformity", "robotic_patterns",
         "compressed_dynamics", "artificial_smoothness", "synthetic_harmonics",
         "perfect_tempo", "missing_micro_variations", "metallic_overtones"]
    ∧ (heuristicDetection (flatToneF 1 1 1 1 1 1 5 3 2) 0.01).classification
        = "AI_GENERATED" :=
  flat_tone_all_ai 1 1 1 1 1 1 5 3 2 0.01
    (by norm_num) (by norm_num) (by norm_num) (by norm_num) (by norm_num) (by norm_num)

/-- The pitch signal only appends its two table tags. -/
lemma pitchSignal_tags (f : Features) (t : String) (h : t ∈ (pitchSignal f).2.2) :
    t = "pitch_consistency" ∨ t = "natural_variation" := by
  simp only [pitchSignal] at h
  split_ifs at h <;> simp_all

/-- The centroid signal only appends its two table tags. -/
lemma centroidSignal_tags (f : Features) (t : String) (h : t ∈ (centroidSignal f).2.2) :
    t = "spectral_uniformity" ∨ t = "organic_transitions" := by
  simp only [centroidSignal] at h
  split_ifs at h <;> simp_all

/-- The ZCR signal only appends its two table tags. -/
lemma zcrSignal_tags (f : Features) (t : String) (h : t ∈ (zcrSignal f).2.2) :
    t = "robotic_patterns" ∨ t = "micro_fluctuations" := by
  simp only [zcrSignal] at h
  split_ifs at h <;> simp_all

/-- The RMS signal only appends its two table tags. -/
lemma rmsSignal_tags (f : Features) (t : String) (h : t ∈ (rmsSignal f).2.2) :
    t = "compressed_dynamics" ∨ t = "dynamic_range" := by
  simp only [rmsSignal] at h
  split_ifs at h <;> simp_all

/-- The MFCC signal only appends its two table tags. -/
lemma mfccSignal_tags (f : Features) (t : String) (h : t ∈ (mfccSignal f).2.2) :
    t = "artificial_smoothness" ∨ t = "natural_harmonics" := by
  simp only [mfccSignal] at h
  split_ifs at h <;> simp_all

/-- The contrast signal only appends its two table tags. -/
lemma contrastSignal_tags (f : Features) (t : String) (h : t ∈ (contrastSignal f).2.2) :
    t = "synthetic_harmonics" ∨ t = "emotional_nuance" := by
  simp only [contrastSignal] at h
  split_ifs at h <;> simp_all

/-- The delta signal only appends its two table tags. -/
lemma deltaSignal_tags (f : Features) (t : String) (h : t ∈ (deltaSignal f).2.2) :
    t = "perfect_tempo" ∨ t = "breathing_patterns" := by
  simp only [deltaSignal] at h
  split_ifs at h <;> simp_all

/-- The mel signal only appends its two table tags. -/
lemma melSignal_tags (f : Features) (t : String) (h : t ∈ (melSignal f).2.2) :
    t = "missing_micro_variations" ∨ t = "human_imperfections" := by
  simp only [melSignal] at h
  split_ifs at h <;> simp_all

/-- The bandwidth signal only appends its single table tag. -/
lemma bandwidthSignal_tags (f : Features) (t : String) (h : t ∈ (bandwidthSignal f).2.2) :
    t = "metallic_overtones" := by
  simp only [bandwidthSignal] at h
  split_ifs at h <;> simp_all

/-- The rolloff signal appends no tag. -/
lemma rolloffSignal_tags (f : Features) (t : String) (h : t ∈ (rolloffSignal f).2.2) :
    False := by
  simp only [rolloffSignal] at h
  split_ifs at h <;> simp_all

/-- Every triggered indicator comes from the fixed table tag list. -/
lemma mem_heuristicTagList (f : Features) (t : String)
    (h : t ∈ (heuristicScores f).2.2) : t ∈ heuristicTagList := by
  simp only [heuristicScores, List.mem_append] at h
  rcases h with ((((((((h | h) | h) | h) | h) | h) | h) | h) | h) | h
  · rcases pitchSignal_tags f t h with rfl | rfl <;> decide
  · rcases centroidSignal_tags f t h with rfl | rfl <;> decide
  · rcases zcrSignal_tags f t h with rfl | rfl <;> decide
  · rcases rmsSignal_tags f t h with rfl | rfl <;> decide
  · rcases mfccSignal_tags f t h with rfl | rfl <;> decide
  · rcases contrastSignal_tags f t h with rfl | rfl <;> decide
  · rcases deltaSignal_tags f t h with rfl | rfl <;> decide
  · rcases melSignal_tags f t h with rfl | rfl <;> decide
  · rcases bandwidthSignal_tags f t h with rfl <;> decide
  · exact absurd h (by simpa using rolloffSignal_tags f t)

/-- A table tag that has an AI_INDICATORS entry maps to a nonempty phrase. -/
lemma aiPhrase_ne (t : String) (h1 : t ∈ heuristicTagList)
    (h2 : (AI_INDICATORS.lookup t).isSome = true) : aiPhrase t ≠ "" := by
  fin_cases h1 <;> revert h2 <;> decide

/-- A table tag that has a HUMAN_INDICATORS entry maps to a nonempty phrase. -/
lemma humanPhrase_ne (t : String) (h1 : t ∈ heuristicTagList)
    (h2 : (HUMAN_INDICATORS.lookup t).isSome = true) : humanPhrase t ≠ "" := by
  fin_cases h1 <;> revert h2 <;> decide

/-- The heuristic explanation is never the empty string. -/
lemma heuristic_expl_ne (f : Features) (noise : ℚ) :
    (heuristicDetection f noise).explanation ≠ "" := by
  by_cases h : (heuristicProbs f).1 > (heuristicProbs f).2
  · rcases hl : (heuristicScores f).2.2.filter (fun i => (AI_INDICATORS.lookup i).isSome)
      with _ | ⟨t, rest⟩
    · simp [heuristicDetection, h, hl]
    · have ht : t ∈ (heuristicScores f).2.2.filter
          (fun i => (AI_INDICATORS.lookup i).isSome) := by
        rw [hl]
        exact List.mem_cons_self _ _
      obtain ⟨htm, htp⟩ := List.mem_filter.mp ht
      have hne := aiPhrase_ne t (mem_heuristicTagList f t htm) htp
      rcases rest with _ | ⟨u, rest2⟩
      · simpa [heuristicDetection, h, hl] using hne
      · simp [heuristicDetection, h, hl]
        exact append_ne_left _ (append_ne_left _ hne)
  · rcases hl : (heuristicScores f).2.2.filter (fun i => (HUMAN_INDICATORS.lookup i).isSome)
      with _ | ⟨t, rest⟩
    · simp [heuristicDetection, h, hl]
    · have ht : t ∈ (heuristicScores f).2.2.filter
          (fun i => (HUMAN_INDICATORS.lookup i).isSome) := by
        rw [hl]
        exact List.mem_cons_self _ _
      obtain ⟨htm, htp⟩ := List.mem_filter.mp ht
      have hne := humanPhrase_ne t (mem_heuristicTagList f t htm) htp
      rcases rest with _ | ⟨u, rest2⟩
      · simpa [heuristicDetection, h, hl] using hne
      · simp [heuristicDetection, h, hl]
        exact append_ne_left _ (append_ne_left _ hne)

/-- The AI-side ML explanation is never empty (it always ends in a fixed
suffix). -/
lemma generateAiExplanation_ne (f : Features) : generateAiExplanation f ≠ "" := by
  simp only [generateAiExplanation]
  exact append_ne_right _ (by decide)

/-- The human-side ML explanation is never empty (its first phrase is one of
four fixed nonempty literals). -/
lemma generateHumanExplanation_ne (f : Features) : generateHumanExplanation f ≠ "" := by
  simp only [generateHumanExplanation]
  split_ifs <;> first | decide | (exfalso ; simp_all)

/-- C8: for every classification outcome — heuristic or ML, AI_GENERATED or
HUMAN, with or without triggered tags — the explanation field is a non-empty
string. -/
theorem explanation_nonempty (f : Features) (noise : ℚ) (prediction : ℤ)
    (probabilities : List ℚ) :
    (heuristicDetection f noise).explanation ≠ ""
    ∧ (mlDetection f prediction probabilities).explanation ≠ "" := by
  refine ⟨heuristic_expl_ne f noise, ?_⟩
  by_cases hp : prediction = 1 <;>
    simp [mlDetection, hp, generateAiExplanation_ne f, generateHumanExplanation_ne f]
